import Mathlib

/-!
Shallow embedding of the price-resolution / caching / snapshot-history / diff
core of the mtg-portfolio-dashboard repository (scripts/_shared.py,
scripts/snapshot_prices.py, scripts/dashboard_data.py, scripts/movers.py,
scripts/validate_csv_to_prices.py).

Modelling conventions:
* Python floats (prices, epoch timestamps) are modelled as `ℚ`; the claims under
  study concern control flow and exact field selection, not rounding.
* ISO `snapshot_date` strings are modelled as `ℤ` day indices: lexicographic
  order on ISO-8601 dates agrees with chronological order, `SELECT MAX` becomes
  `List.max?`, and `date.fromisoformat(d) - timedelta(days=n)` becomes `d - n`.
* The on-disk cache directory is a map from filename to file content
  (`CacheState`); an unreadable or unparsable file is `CacheFile.corrupt`.
* The remote catalog (`fetch_scryfall_card`) is an oracle `PrintingKey → Card`;
  the number of remote fetches performed is returned explicitly.
* Python string operations are re-implemented structurally over `List Char`
  so that every definition evaluates inside the kernel.
-/

/-! ### Python string primitives -/

/-- `s.replace(a, b)` for a single-character pattern `a`. -/
def py_replace_char (s : String) (a b : Char) : String :=
  ⟨s.data.map (fun c => if c = a then b else c)⟩

/-- `s.replace(a, "")` for a single-character pattern `a`. -/
def py_remove_char (s : String) (a : Char) : String :=
  ⟨s.data.filter (fun c => decide (c ≠ a))⟩

/-- `s.strip()`: drop leading and trailing whitespace. -/
def py_strip (s : String) : String :=
  ⟨((s.data.dropWhile Char.isWhitespace).reverse.dropWhile Char.isWhitespace).reverse⟩

/-- `s.lower()` (ASCII case folding, as used on set codes and finishes). -/
def py_lower (s : String) : String :=
  ⟨s.data.map Char.toLower⟩

/-- Does `l` start with the character sequence `pat`? -/
def starts_with_seq : List Char → List Char → Bool
  | [], _ => true
  | _ :: _, [] => false
  | p :: ps, c :: cs => p == c && starts_with_seq ps cs

/-- The prefix of `l` strictly before the first occurrence of the (nonempty)
sequence `pat`; the whole list when `pat` does not occur. -/
def take_before_seq (pat : List Char) : List Char → List Char
  | [] => []
  | c :: cs => if starts_with_seq pat (c :: cs) then [] else c :: take_before_seq pat cs

/-- `s.split(sep)[0]`: the part of `s` left of the first occurrence of `sep`. -/
def py_split_first (s sep : String) : String :=
  ⟨take_before_seq sep.data s.data⟩

/-- Helper for `py_split_ws`: accumulate the current word (reversed). -/
def words_aux (cur : List Char) : List Char → List (List Char)
  | [] => if cur = [] then [] else [cur.reverse]
  | c :: cs =>
    if c.isWhitespace then
      if cur = [] then words_aux [] cs else cur.reverse :: words_aux [] cs
    else
      words_aux (c :: cur) cs

/-- `s.split()`: split on whitespace runs, discarding empty pieces. -/
def py_split_ws (s : String) : List String :=
  (words_aux [] s.data).map (fun l => ⟨l⟩)

/-- Python `x or dflt` for an optional string `x` (`None` and `""` are falsy). -/
def py_or_str (x : Option String) (dflt : String) : String :=
  match x with
  | some s => if s = "" then dflt else s
  | none => dflt

/-! ### Data model (scripts/_shared.py) -/

/-- A JSON price field of a catalog payload: absent key, empty string,
the literal string `"null"`, JSON null (all treated alike by `to_float`),
or a decimal value. -/
inductive PriceField where
  | absent
  | emptyStr
  | nullVal
  | num (q : ℚ)
deriving DecidableEq

/-- The `prices` object of a catalog payload (`usd`, `usd_foil`). -/
structure Prices where
  usd : PriceField
  usd_foil : PriceField
deriving DecidableEq

/-- A catalog payload (Scryfall card JSON) restricted to the fields the core
reads, plus the `_fetched_at_epoch` field injected by `cache_set`
(`none` models an absent or non-numeric field). -/
structure Card where
  id : Option String
  name : Option String
  rarity : Option String
  type_line : Option String
  prices : Option Prices
  fetched_at_epoch : Option ℚ
deriving DecidableEq, Inhabited

/-- `PrintingKey` from `_shared.py`. -/
structure PrintingKey where
  set_code : String
  collector_number : String
deriving DecidableEq

/-- Content of one cache file: unreadable / malformed JSON, or a parsed payload. -/
inductive CacheFile where
  | corrupt
  | parsed (card : Card)
deriving DecidableEq

/-- The cache directory: filename → file content (`none` = file absent). -/
def CacheState : Type := String → Option CacheFile

/-- `CACHE_TTL_HOURS = 12`. -/
def CACHE_TTL_HOURS : ℚ := 12

/-- `_cache_filename`: substitute filesystem-unsafe characters in the
collector number; slashes and backslashes become underscores, spaces are
removed. -/
def cache_filename (key : PrintingKey) : String :=
  let safe_cn :=
    py_remove_char (py_replace_char (py_replace_char key.collector_number '/' '_') '\\' '_') ' '
  key.set_code ++ "__" ++ safe_cn ++ ".json"

/-- `cache_get(cache_dir, key, ttl_hours)` at current time `now`:
absent file, unparsable file, missing/non-numeric `_fetched_at_epoch`, or an
age above `ttl_hours * 3600` seconds are all misses. -/
def cache_get (st : CacheState) (key : PrintingKey) (ttl_hours now : ℚ) : Option Card :=
  match st (cache_filename key) with
  | none => none
  | some .corrupt => none
  | some (.parsed data) =>
    match data.fetched_at_epoch with
    | none => none
    | some fetched_at =>
      if now - fetched_at > ttl_hours * 3600 then none else some data

/-- `cache_set(cache_dir, key, card)` at current time `now`: write a copy of
the payload with `_fetched_at_epoch` set to `now`, overwriting the file. -/
def cache_set (st : CacheState) (key : PrintingKey) (card : Card) (now : ℚ) : CacheState :=
  fun fname =>
    if fname = cache_filename key then
      some (.parsed { card with fetched_at_epoch := some now })
    else st fname

/-- Result of `fetch_scryfall_card_cached`: the returned payload and note,
the cache directory afterwards, and how many remote fetches were performed. -/
structure FetchResult where
  card : Card
  note : String
  state : CacheState
  fetches : ℕ

/-- `fetch_scryfall_card_cached(cache_dir, key, ttl_hours)`: return the fresh
cached payload if any, else perform exactly one remote fetch, store it, and
return it. -/
def fetch_scryfall_card_cached (fetch : PrintingKey → Card) (st : CacheState)
    (key : PrintingKey) (ttl_hours now : ℚ) : FetchResult :=
  match cache_get st key ttl_hours now with
  | some cached => ⟨cached, "cache_hit", st, 0⟩
  | none =>
    let card := fetch key
    ⟨card, "cache_miss_fetched", cache_set st key card now, 1⟩

/-- `to_float(x)`: `None`, `""` and `"null"` (and an absent key) give `None`;
a decimal value parses to its number. -/
def to_float : PriceField → Option ℚ
  | .num q => some q
  | _ => none

/-- `choose_unit_price_usd(card, finish)`. -/
def choose_unit_price_usd (card : Card) (finish : String) : Option ℚ × String :=
  let prices := card.prices.getD ⟨.absent, .absent⟩
  let usd := to_float prices.usd
  let usd_foil := to_float prices.usd_foil
  if finish = "foil" then
    match usd_foil with
    | some v => (some v, "ok")
    | none =>
      match usd with
      | some v => (some v, "fallback_used:usd")
      | none => (none, "missing_price_usd")
  else
    match usd with
    | some v => (some v, "ok")
    | none =>
      match usd_foil with
      | some v => (some v, "fallback_used:usd_foil")
      | none => (none, "missing_price_usd")

/-! ### SnapshotStore (scripts/snapshot_prices.py) -/

/-- One row of the `price_snapshots` table, as written by `upsert_snapshot`
(`snapshot_date` as an integer day index, see the header). -/
structure SnapRow where
  snapshot_date : ℤ
  scryfall_id : Option String
  set_code : String
  collector_number : String
  finish : String
  name : Option String
  rarity : String
  type_line : String
  usd : Option ℚ
  fetched_at_epoch : Option ℚ
deriving DecidableEq

/-- The declared primary key `(snapshot_date, scryfall_id, finish)`. -/
def row_key (r : SnapRow) : ℤ × Option String × String :=
  (r.snapshot_date, r.scryfall_id, r.finish)

/-- SQLite `INSERT OR REPLACE`: delete every row conflicting on the primary
key, then insert the new row. -/
def insert_or_replace (store : List SnapRow) (r : SnapRow) : List SnapRow :=
  (store.filter (fun x => decide (row_key x ≠ row_key r))) ++ [r]

/-- The row `upsert_snapshot` builds from its arguments
(`card.get("rarity") or "unknown"`, `card.get("type_line") or ""`). -/
def mk_snapshot_row (snapshot_date : ℤ) (card : Card)
    (set_code collector_number finish : String) (usd : Option ℚ) : SnapRow :=
  { snapshot_date := snapshot_date
    scryfall_id := card.id
    set_code := set_code
    collector_number := collector_number
    finish := finish
    name := card.name
    rarity := py_or_str card.rarity "unknown"
    type_line := py_or_str card.type_line ""
    usd := usd
    fetched_at_epoch := card.fetched_at_epoch }

/-- `upsert_snapshot(conn, snapshot_date, card, set_code, collector_number,
finish, usd)`. -/
def upsert_snapshot (store : List SnapRow) (snapshot_date : ℤ) (card : Card)
    (set_code collector_number finish : String) (usd : Option ℚ) : List SnapRow :=
  insert_or_replace store (mk_snapshot_row snapshot_date card set_code collector_number finish usd)

/-- The rows readable for one primary-key value
(`SELECT * WHERE snapshot_date = d AND scryfall_id = i AND finish = f`). -/
def rows_for_key (store : List SnapRow) (d : ℤ) (i : Option String) (f : String) :
    List SnapRow :=
  store.filter (fun r => decide (r.snapshot_date = d ∧ r.scryfall_id = i ∧ r.finish = f))

/-! ### Category tokens (`type_buckets`) -/

namespace ValidateCsv

/-- `type_buckets` from scripts/validate_csv_to_prices.py: the part of the
type line left of the first em-dash (U+2014), split on whitespace;
empty input or no tokens give `["Unknown"]`. -/
def type_buckets (type_line : String) : List String :=
  if type_line = "" then ["Unknown"]
  else
    let left := py_strip (py_split_first type_line "—")
    let parts := ((py_split_ws left).filter (fun p => decide (py_strip p ≠ ""))).map py_strip
    if parts = [] then ["Unknown"] else parts

end ValidateCsv

namespace DashboardData

/-- `type_buckets` from scripts/dashboard_data.py: identical to the
validate_csv_to_prices.py copy except that the separator in the source is the
three-character sequence "â€”" (a mis-encoded em-dash), not the em-dash
character itself. -/
def type_buckets (type_line : String) : List String :=
  if type_line = "" then ["Unknown"]
  else
    let left := py_strip (py_split_first type_line "â€”")
    let parts := ((py_split_ws left).filter (fun p => decide (py_strip p ≠ ""))).map py_strip
    if parts = [] then ["Unknown"] else parts

end DashboardData

/-! ### Valuation / dashboard model (scripts/dashboard_data.py) -/

/-- `_latest_snapshot_date` / `latest_snapshot_date`: `SELECT MAX(snapshot_date)`.
In the scripts an empty result raises `RuntimeError`; callers that catch the
exception see `none`. -/
def latest_snapshot_date (store : List SnapRow) : Option ℤ :=
  (store.map (fun r => r.snapshot_date)).max?

/-- `_snapshot_on_or_before` / `snapshot_on_or_before`:
`SELECT MAX(snapshot_date) WHERE snapshot_date <= target`. -/
def snapshot_on_or_before (store : List SnapRow) (target : ℤ) : Option ℤ :=
  ((store.map (fun r => r.snapshot_date)).filter (fun d => decide (d ≤ target))).max?

/-- One validated owned position (a row of `collection.csv` after
`load_collection`): set code, collector number, finish, quantity. -/
structure OwnedRow where
  set_code : String
  collector_number : String
  finish : String
  qty : ℤ
deriving DecidableEq

/-- The key normalization applied to owned rows
(strip + lower on set code and finish, strip on collector number). -/
def normalize_owned (rows : List OwnedRow) : List OwnedRow :=
  rows.map (fun r =>
    { r with
      set_code := py_lower (py_strip r.set_code)
      collector_number := py_strip r.collector_number
      finish := py_lower (py_strip r.finish) })

/-- An owned position enriched with payload data and a resolved price
(a row of `latest_owned` in dashboard_data.py). -/
structure ValuedRow where
  set_code : String
  collector_number : String
  finish : String
  qty : ℤ
  name : Option String
  scryfall_id : Option String
  rarity : String
  type_line : String
  usd : Option ℚ
  position_value_usd : Option ℚ
deriving DecidableEq

/-- Keep the first occurrence of each element (`drop_duplicates`). -/
def first_dedup {α : Type} [DecidableEq α] (l : List α) : List α :=
  l.foldl (fun acc k => if k ∈ acc then acc else acc ++ [k]) []

/-- Resolve each key once via `fetch_scryfall_card_cached`, threading the cache
directory; returns the in-memory `card_cache` and the final cache state. -/
def resolve_all (fetch : PrintingKey → Card) (keys : List PrintingKey)
    (st : CacheState) (ttl_hours now : ℚ) : List (PrintingKey × Card) × CacheState :=
  keys.foldl
    (fun acc k =>
      let r := fetch_scryfall_card_cached fetch acc.2 k ttl_hours now
      (acc.1 ++ [(k, r.card)], r.state))
    ([], st)

/-- Lookup in the in-memory `card_cache` dict (every owned key is present). -/
def lookup_card (assoc : List (PrintingKey × Card)) (k : PrintingKey) : Card :=
  match assoc.find? (fun p => p.1 == k) with
  | some p => p.2
  | none => default

/-- Enrich one owned row from its payload, as `_compute_live_owned` does:
`str(card.get("name") or "")`, `str(card.get("id") or "")`,
`str(card.get("rarity") or "unknown").lower()`, `str(card.get("type_line") or "")`,
unit price by finish, `position_value_usd = usd * qty` (null propagates). -/
def enrich_row (card : Card) (r : OwnedRow) : ValuedRow :=
  let unit := (choose_unit_price_usd card r.finish).1
  { set_code := r.set_code
    collector_number := r.collector_number
    finish := r.finish
    qty := r.qty
    name := some (py_or_str card.name "")
    scryfall_id := some (py_or_str card.id "")
    rarity := py_lower (py_or_str card.rarity "unknown")
    type_line := py_or_str card.type_line ""
    usd := unit
    position_value_usd := unit.map (fun u => u * (r.qty : ℚ)) }

/-- `_compute_live_owned`: fetch once per distinct printing (disk cache +
remote oracle), then enrich every owned row from the in-memory dict. -/
def compute_live_owned (fetch : PrintingKey → Card) (owned : List OwnedRow)
    (st : CacheState) (ttl_hours now : ℚ) : List ValuedRow × CacheState :=
  let keys := first_dedup (owned.map (fun r => PrintingKey.mk r.set_code r.collector_number))
  let res := resolve_all fetch keys st ttl_hours now
  (owned.map (fun r => enrich_row (lookup_card res.1 (PrintingKey.mk r.set_code r.collector_number)) r),
   res.2)

/-- Snapshot-mode holdings: inner-join owned positions to the latest-date rows
on (set_code, collector_number, finish); `position_value_usd = usd * qty`. -/
def snapshot_latest_owned (owned : List OwnedRow) (rows : List SnapRow) : List ValuedRow :=
  owned.flatMap (fun o =>
    (rows.filter (fun s =>
        s.set_code == o.set_code && s.collector_number == o.collector_number
          && s.finish == o.finish)).map
      (fun s =>
        { set_code := o.set_code
          collector_number := o.collector_number
          finish := o.finish
          qty := o.qty
          name := s.name
          scryfall_id := s.scryfall_id
          rarity := s.rarity
          type_line := s.type_line
          usd := s.usd
          position_value_usd := s.usd.map (fun u => u * (o.qty : ℚ)) }))

/-- A baseline-snapshot row as selected for the mover join
(`SELECT scryfall_id, finish, usd AS usd_baseline`). -/
structure BaselineRow where
  scryfall_id : Option String
  finish : String
  usd_baseline : Option ℚ
deriving DecidableEq

/-- The per-row percent change of dashboard_data.py:
`delta / baseline * 100` when the baseline is not 0, else null (pandas NaN). -/
def pct_change_dashboard (delta_usd usd_baseline : ℚ) : Option ℚ :=
  if usd_baseline ≠ 0 then some (delta_usd / usd_baseline * 100) else none

/-- A joined mover row of dashboard_data.py. -/
structure DashMoverRow where
  finish : String
  scryfall_id : Option String
  qty : ℤ
  name : Option String
  usd : ℚ
  usd_baseline : ℚ
  delta_usd : ℚ
  pct_change : Option ℚ
deriving DecidableEq

/-- The dashboard mover pipeline: inner-join current holdings to baseline rows
on (scryfall_id, finish), drop rows lacking either price, then assign
`delta_usd` and `pct_change`. -/
def dashboard_movers (latest_owned : List ValuedRow) (baseline_rows : List BaselineRow) :
    List DashMoverRow :=
  (latest_owned.flatMap (fun l =>
      (baseline_rows.filter (fun b =>
          b.scryfall_id == l.scryfall_id && b.finish == l.finish)).map (fun b => (l, b)))).filterMap
    (fun lb =>
      match lb.1.usd, lb.2.usd_baseline with
      | some u, some ub =>
        some { finish := lb.1.finish
               scryfall_id := lb.1.scryfall_id
               qty := lb.1.qty
               name := lb.1.name
               usd := u
               usd_baseline := ub
               delta_usd := u - ub
               pct_change := pct_change_dashboard (u - ub) ub }
      | _, _ => none)

/-- Gainers and losers of dashboard_data.py: drop `delta_usd = 0`, split on the
sign of `delta_usd`, order by `delta_usd` (descending resp. ascending) and take
`top_n`. The source sorts with the pandas default kind, whose order on equal
keys is implementation-defined; this model fixes a stable sort, and no theorem
below depends on the order of ties. -/
def dash_movers_views (movers : List DashMoverRow) (top_n : ℕ) :
    List DashMoverRow × List DashMoverRow :=
  let moved := movers.filter (fun m => decide (m.delta_usd ≠ 0))
  ((List.insertionSort (fun a b => a.delta_usd ≥ b.delta_usd)
      (moved.filter (fun m => decide (0 < m.delta_usd)))).take top_n,
   (List.insertionSort (fun a b => a.delta_usd ≤ b.delta_usd)
      (moved.filter (fun m => decide (m.delta_usd < 0)))).take top_n)

/-- `sum` with `skipna=True`: null position values contribute nothing. -/
def sum_position_values (rows : List ValuedRow) : ℚ :=
  (rows.map (fun r => r.position_value_usd.getD 0)).sum

/-- `groupby(key).agg(count=sum qty, value_usd=sum value).sort_values(value_usd,
descending)`; group keys are enumerated in first appearance order and the final
order is by value (pandas leaves the order of equal values
implementation-defined; no theorem below depends on it). -/
def group_agg {α : Type} (keyOf : α → String) (qtyOf : α → ℤ) (valOf : α → Option ℚ)
    (rows : List α) : List (String × ℤ × ℚ) :=
  let keys := first_dedup (rows.map keyOf)
  let groups := keys.map (fun k =>
    let g := rows.filter (fun r => keyOf r == k)
    (k, (g.map qtyOf).sum, (g.map (fun r => (valOf r).getD 0)).sum))
  List.insertionSort (fun a b => a.2.2 ≥ b.2.2) groups

/-- The explode step of the category breakdown: one (token, row) pair per
derived category token. -/
def explode_type_buckets (rows : List ValuedRow) : List (String × ValuedRow) :=
  rows.flatMap (fun r => (DashboardData.type_buckets r.type_line).map (fun b => (b, r)))

/-- `get_portfolio_timeseries()`: join every non-null-price snapshot row to the
current owned positions on (set_code, collector_number, finish), then sum
position values per snapshot date, chronologically. -/
def get_portfolio_timeseries (owned_raw : List OwnedRow) (store : List SnapRow) :
    List (ℤ × ℚ) :=
  let owned := normalize_owned owned_raw
  let snaps := store.filter (fun r => decide (r.usd ≠ none))
  let merged := owned.flatMap (fun o =>
    (snaps.filter (fun s =>
        s.set_code == o.set_code && s.collector_number == o.collector_number
          && s.finish == o.finish)).map
      (fun s => (s.snapshot_date, (s.usd.getD 0) * (o.qty : ℚ))))
  let dates := List.insertionSort (fun a b => a ≤ b) (first_dedup (merged.map (fun p => p.1)))
  dates.map (fun d => (d, ((merged.filter (fun p => p.1 == d)).map (fun p => p.2)).sum))

/-- The result bundle of `get_dashboard_data`. -/
structure DashboardOut where
  pricing_mode : String
  latest_snapshot : Option ℤ
  baseline_snapshot : Option ℤ
  total_value_usd : ℚ
  num_positions : ℕ
  latest_owned : List ValuedRow
  top_holdings : List ValuedRow
  gainers : List DashMoverRow
  losers : List DashMoverRow
  rarity_breakdown : List (String × ℤ × ℚ)
  type_breakdown : List (String × ℤ × ℚ)
  portfolio_ts : List (ℤ × ℚ)

/-- `get_dashboard_data(days, top_n, live_prices)` over explicit state: owned
positions, snapshot store, cache directory, remote oracle and current time.
The DB `try` block of the source catches the empty-store `RuntimeError`, so
`latest`/`baseline` are `Option`s; snapshot mode with no snapshot raises. -/
def get_dashboard_data (days : ℤ) (top_n : ℕ) (live_prices : Bool)
    (owned_raw : List OwnedRow) (store : List SnapRow) (cache : CacheState)
    (fetch : PrintingKey → Card) (now : ℚ) : Except String DashboardOut :=
  let owned := normalize_owned owned_raw
  let latest := latest_snapshot_date store
  let baseline := match latest with
    | some l => snapshot_on_or_before store (l - days)
    | none => none
  let baseline_rows : List BaselineRow := match baseline with
    | some b => (store.filter (fun r => r.snapshot_date == b)).map
        (fun r => ⟨r.scryfall_id, r.finish, r.usd⟩)
    | none => []
  let build : List ValuedRow → String → DashboardOut := fun latest_owned mode =>
    let top_holdings :=
      (List.insertionSort
        (fun a b => a.position_value_usd.getD 0 ≥ b.position_value_usd.getD 0)
        (latest_owned.filter (fun r => decide (r.usd ≠ none)))).take top_n
    let views := match baseline with
      | some _ =>
        if baseline_rows ≠ [] then
          dash_movers_views (dashboard_movers latest_owned baseline_rows) top_n
        else ([], [])
      | none => ([], [])
    { pricing_mode := mode
      latest_snapshot := latest
      baseline_snapshot := baseline
      total_value_usd := sum_position_values latest_owned
      num_positions := latest_owned.length
      latest_owned := latest_owned
      top_holdings := top_holdings
      gainers := views.1
      losers := views.2
      rarity_breakdown :=
        group_agg (fun r => r.rarity) (fun r => r.qty) (fun r => r.position_value_usd) latest_owned
      type_breakdown :=
        group_agg (fun p => p.1) (fun p => p.2.qty) (fun p => p.2.position_value_usd)
          (explode_type_buckets latest_owned)
      portfolio_ts := get_portfolio_timeseries owned_raw store }
  if live_prices then
    .ok (build (compute_live_owned fetch owned cache CACHE_TTL_HOURS now).1 "live")
  else
    match latest with
    | none => .error "No snapshots found for snapshot-mode. Either run snapshot_prices or set live_prices=True."
    | some l => .ok (build (snapshot_latest_owned owned (store.filter (fun r => r.snapshot_date == l))) "snapshot")

/-! ### Movers CLI model (scripts/movers.py) -/

/-- A pandas float cell as produced by columnwise arithmetic in movers.py:
a finite value, an infinity, or NaN. NaN is the only value pandas treats as
null (`isna` / `dropna`). -/
inductive FloatVal where
  | fin (q : ℚ)
  | pinf
  | ninf
  | nan
deriving DecidableEq

/-- numpy columnwise division: division by zero yields an infinity of the
numerator sign (NaN for 0/0) instead of raising. -/
def fv_div (a b : ℚ) : FloatVal :=
  if b = 0 then
    if 0 < a then .pinf else if a < 0 then .ninf else .nan
  else .fin (a / b)

/-- numpy columnwise `* 100.0`. -/
def fv_mul100 : FloatVal → FloatVal
  | .fin q => .fin (q * 100)
  | v => v

/-- IEEE `x != 0` (true for infinities and NaN). -/
def fv_ne_zero : FloatVal → Bool
  | .fin q => decide (q ≠ 0)
  | _ => true

/-- IEEE `x > 0` (false for NaN). -/
def fv_pos : FloatVal → Bool
  | .fin q => decide (0 < q)
  | .pinf => true
  | _ => false

/-- IEEE `x < 0` (false for NaN). -/
def fv_neg : FloatVal → Bool
  | .fin q => decide (q < 0)
  | .ninf => true
  | _ => false

/-- Ranking order used for `sort_values` on a float column; NaN is placed last
as pandas does (NaN never reaches the sorted pools in movers.py). -/
def fv_le : FloatVal → FloatVal → Bool
  | .nan, .nan => true
  | .nan, _ => false
  | _, .nan => true
  | .ninf, _ => true
  | _, .ninf => false
  | .fin a, .fin b => decide (a ≤ b)
  | .fin _, .pinf => true
  | .pinf, .fin _ => false
  | .pinf, .pinf => true

/-- The per-row `pct_change` of movers.py line 110:
`(delta_usd / usd_baseline) * 100.0` with no zero-baseline guard. -/
def pct_change_movers (delta_usd usd_baseline : ℚ) : FloatVal :=
  fv_mul100 (fv_div delta_usd usd_baseline)

/-- A row of `latest_owned` in movers.py (owned keys inner-joined to the
latest-snapshot rows). -/
structure CliRow where
  set_code : String
  collector_number : String
  finish : String
  qty : ℤ
  scryfall_id : Option String
  name : Option String
  usd : Option ℚ
deriving DecidableEq

/-- A joined mover row of movers.py, after `dropna` on both prices. -/
structure CliMoverRow where
  set_code : String
  collector_number : String
  finish : String
  qty : ℤ
  scryfall_id : Option String
  name : Option String
  usd : ℚ
  usd_baseline : ℚ
  delta_usd : ℚ
  pct_change : FloatVal
deriving DecidableEq

/-- The movers.py join + dropna + assignment pipeline (lines 106-110). -/
def cli_movers (latest_owned : List CliRow) (baseline_rows : List BaselineRow) :
    List CliMoverRow :=
  (latest_owned.flatMap (fun l =>
      (baseline_rows.filter (fun b =>
          b.scryfall_id == l.scryfall_id && b.finish == l.finish)).map (fun b => (l, b)))).filterMap
    (fun lb =>
      match lb.1.usd, lb.2.usd_baseline with
      | some u, some ub =>
        some { set_code := lb.1.set_code
               collector_number := lb.1.collector_number
               finish := lb.1.finish
               qty := lb.1.qty
               scryfall_id := lb.1.scryfall_id
               name := lb.1.name
               usd := u
               usd_baseline := ub
               delta_usd := u - ub
               pct_change := pct_change_movers (u - ub) ub }
      | _, _ => none)

/-- The output of `movers.main`. -/
structure MoversOut where
  latest : ℤ
  baseline : ℤ
  holdings : List (CliRow × ℚ)
  movers : List CliMoverRow
  gainers : List CliMoverRow
  losers : List CliMoverRow

/-- `movers.main(days, top_n, sort_mode)` over explicit state. An empty store
makes `latest_snapshot_date` raise; an absent baseline raises the distinct
"Not enough snapshot history" error. -/
def movers_main (days : ℤ) (top_n : ℕ) (sort_mode : String)
    (owned_raw : List OwnedRow) (store : List SnapRow) : Except String MoversOut :=
  match latest_snapshot_date store with
  | none => .error "No snapshots found. Run scripts/snapshot_prices.py first."
  | some latest =>
    let target := latest - days
    match snapshot_on_or_before store target with
    | none => .error "Not enough snapshot history."
    | some baseline =>
      let owned := normalize_owned owned_raw
      let latest_rows := store.filter (fun r => r.snapshot_date == latest)
      let baseline_rows : List BaselineRow :=
        (store.filter (fun r => r.snapshot_date == baseline)).map
          (fun r => ⟨r.scryfall_id, r.finish, r.usd⟩)
      let latest_owned : List CliRow := owned.flatMap (fun o =>
        (latest_rows.filter (fun s =>
            s.set_code == o.set_code && s.collector_number == o.collector_number
              && s.finish == o.finish)).map
          (fun s => ⟨o.set_code, o.collector_number, o.finish, o.qty,
                     s.scryfall_id, s.name, s.usd⟩))
      let holdings := (latest_owned.filter (fun c => c.usd.isSome)).map
        (fun c => (c, (c.usd.getD 0) * (c.qty : ℚ)))
      let movers := cli_movers latest_owned baseline_rows
      let key : CliMoverRow → FloatVal :=
        if sort_mode = "abs" then (fun m => .fin m.delta_usd) else (fun m => m.pct_change)
      let moved := movers.filter (fun m => fv_ne_zero (key m))
      let gainers :=
        (List.insertionSort (fun a b => fv_le (key b) (key a) = true)
          (moved.filter (fun m => fv_pos (key m)))).take top_n
      let losers :=
        (List.insertionSort (fun a b => fv_le (key a) (key b) = true)
          (moved.filter (fun m => fv_neg (key m)))).take top_n
      .ok ⟨latest, baseline, holdings, movers, gainers, losers⟩

/-! ### Theorems -/

/-- Helper: `cache_get` misses exactly when no stored, parsed, fresh payload
exists for the key. -/
theorem cache_get_none_iff (st : CacheState) (key : PrintingKey) (ttl now : ℚ) :
    cache_get st key ttl now = none ↔
      ¬ ∃ d t, st (cache_filename key) = some (CacheFile.parsed d) ∧
        d.fetched_at_epoch = some t ∧ now - t ≤ ttl * 3600 := by
  rcases hst : st (cache_filename key) with _ | cf
  · simp [cache_get, hst]
  · cases cf with
    | corrupt => simp [cache_get, hst]
    | parsed d =>
      rcases hfe : d.fetched_at_epoch with _ | t
      · simp [cache_get, hst, hfe]
      · rcases lt_or_le (ttl * 3600) (now - t) with h | h
        · simp only [cache_get, hst, hfe, gt_iff_lt, if_pos h]
          simp only [true_iff]
          rintro ⟨d', t', hd', ht', hle⟩
          have hdd : d = d' := by simpa using hd'
          subst hdd
          rw [hfe] at ht'
          cases ht'
          exact absurd hle (not_le.mpr h)
        · simp only [cache_get, hst, hfe, gt_iff_lt, if_neg (not_lt.mpr h)]
          simp only [reduceCtorEq, false_iff, not_not]
          exact ⟨d, t, rfl, hfe, h⟩

/-- C1: for every key and ttl, if a cached payload for the key exists, parses,
and has age ≤ ttl, the cached resolve returns that payload unchanged, performs
no remote fetch and leaves the cache unchanged; otherwise (exactly the
complement of that condition) it performs exactly one remote fetch, stores the
fetched payload under the key, and returns it, and the cache afterwards holds
the new payload (readable again while the ttl is nonnegative). -/
theorem c1_resolve_cache (fetch : PrintingKey → Card) (st : CacheState)
    (key : PrintingKey) (ttl now : ℚ) :
    (∀ d t, st (cache_filename key) = some (CacheFile.parsed d) →
      d.fetched_at_epoch = some t → now - t ≤ ttl * 3600 →
      fetch_scryfall_card_cached fetch st key ttl now = ⟨d, "cache_hit", st, 0⟩)
    ∧ (cache_get st key ttl now = none ↔
        ¬ ∃ d t, st (cache_filename key) = some (CacheFile.parsed d) ∧
          d.fetched_at_epoch = some t ∧ now - t ≤ ttl * 3600)
    ∧ (cache_get st key ttl now = none →
        fetch_scryfall_card_cached fetch st key ttl now =
          ⟨fetch key, "cache_miss_fetched", cache_set st key (fetch key) now, 1⟩
        ∧ cache_set st key (fetch key) now (cache_filename key) =
            some (CacheFile.parsed { fetch key with fetched_at_epoch := some now })
        ∧ (0 ≤ ttl → cache_get (cache_set st key (fetch key) now) key ttl now =
            some { fetch key with fetched_at_epoch := some now })) := by
  refine ⟨?_, cache_get_none_iff st key ttl now, ?_⟩
  · intro d t h1 h2 h3
    have hget : cache_get st key ttl now = some d := by
      simp only [cache_get, h1, h2, gt_iff_lt, if_neg (not_lt.mpr h3)]
    simp only [fetch_scryfall_card_cached, hget]
  · intro hnone
    have hset : cache_set st key (fetch key) now (cache_filename key) =
        some (CacheFile.parsed { fetch key with fetched_at_epoch := some now }) := by
      simp [cache_set]
    refine ⟨by simp only [fetch_scryfall_card_cached, hnone], hset, ?_⟩
    intro httl
    have hfresh : ¬ (now - now > ttl * 3600) := by
      rw [sub_self]
      exact not_lt.mpr (mul_nonneg httl (by norm_num))
    simp only [cache_get, hset, gt_iff_lt] at hfresh ⊢
    rw [if_neg hfresh]

/-- A sample payload used by the closed witnesses. -/
def sample_card : Card :=
  { id := some "id123"
    name := some "Black Lotus"
    rarity := some "rare"
    type_line := some "Artifact"
    prices := some ⟨PriceField.num 3, PriceField.absent⟩
    fetched_at_epoch := none }

/-- An empty cache directory. -/
def empty_cache : CacheState := fun _ => none

/-- An oracle that always answers with `sample_card`. -/
def sample_fetch : PrintingKey → Card := fun _ => sample_card

/-- A sample key. -/
def sample_key : PrintingKey := ⟨"abc", "1"⟩

/-- Witness for C1: on an empty cache the miss branch fires, performing one
fetch and storing the payload. -/
theorem c1_resolve_cache_witness :
    cache_get empty_cache sample_key 12 0 = none ∧
    fetch_scryfall_card_cached sample_fetch empty_cache sample_key 12 0 =
      ⟨sample_card, "cache_miss_fetched", cache_set empty_cache sample_key sample_card 0, 1⟩ :=
  ⟨rfl, ((c1_resolve_cache sample_fetch empty_cache sample_key 12 0).2.2 rfl).1⟩

/-- C9: a cache record that is unreadable or fails to parse is treated exactly
as an absent record: `cache_get` returns a miss rather than raising, the cached
resolve re-fetches (exactly one fetch) and overwrites the corrupt record. -/
theorem c9_corrupt_cache_recovered (fetch : PrintingKey → Card) (st : CacheState)
    (key : PrintingKey) (ttl now : ℚ)
    (h : st (cache_filename key) = some CacheFile.corrupt) :
    cache_get st key ttl now = none
    ∧ fetch_scryfall_card_cached fetch st key ttl now =
        ⟨fetch key, "cache_miss_fetched", cache_set st key (fetch key) now, 1⟩
    ∧ cache_set st key (fetch key) now (cache_filename key) =
        some (CacheFile.parsed { fetch key with fetched_at_epoch := some now }) := by
  have hn : cache_get st key ttl now = none := by simp [cache_get, h]
  exact ⟨hn, by simp only [fetch_scryfall_card_cached, hn], by simp [cache_set]⟩

/-- An everywhere-corrupt cache directory. -/
def corrupt_cache : CacheState := fun _ => some CacheFile.corrupt

/-- Witness for C9 at a concrete corrupt cache. -/
theorem c9_corrupt_cache_recovered_witness :
    corrupt_cache (cache_filename sample_key) = some CacheFile.corrupt ∧
    cache_get corrupt_cache sample_key 12 0 = none :=
  ⟨rfl, (c9_corrupt_cache_recovered sample_fetch corrupt_cache sample_key 12 0 rfl).1⟩

/-- C10: the key → cache filename mapping is not injective: distinct keys
whose collector numbers differ only by slash vs. backslash, or by a removed
space, share a cache file, so `cache_set` for one key overwrites the other
key's record and `cache_get` for the second key returns the payload stored for
the first. -/
theorem c10_cache_filename_collision :
    (PrintingKey.mk "abc" "12/a" ≠ PrintingKey.mk "abc" "12\\a"
      ∧ cache_filename ⟨"abc", "12/a"⟩ = cache_filename ⟨"abc", "12\\a"⟩)
    ∧ (PrintingKey.mk "abc" "1 2" ≠ PrintingKey.mk "abc" "12"
      ∧ cache_filename ⟨"abc", "1 2"⟩ = cache_filename ⟨"abc", "12"⟩)
    ∧ (∀ (st : CacheState) (card : Card) (now : ℚ),
        cache_set st ⟨"abc", "12/a"⟩ card now (cache_filename ⟨"abc", "12\\a"⟩) =
          some (CacheFile.parsed { card with fetched_at_epoch := some now })
        ∧ cache_get (cache_set st ⟨"abc", "12/a"⟩ card now) ⟨"abc", "12\\a"⟩ 12 now =
            some { card with fetched_at_epoch := some now }) := by
  refine ⟨⟨by decide, by decide⟩, ⟨by decide, by decide⟩, ?_⟩
  intro st card now
  have hset : cache_set st ⟨"abc", "12/a"⟩ card now (cache_filename ⟨"abc", "12\\a"⟩) =
      some (CacheFile.parsed { card with fetched_at_epoch := some now }) := by
    unfold cache_set
    rw [if_pos (by decide)]
  refine ⟨hset, ?_⟩
  simp only [cache_get, hset]
  rw [if_neg]
  rw [sub_self]
  norm_num

/-- C3: unit-price selection. With finish = foil: the parsed foil price when
present, else the parsed nonfoil price tagged with the fallback marker, else a
null price; with finish = nonfoil, symmetrically. -/
theorem c3_choose_unit_price (card : Card) :
    (∀ q, to_float (card.prices.getD ⟨.absent, .absent⟩).usd_foil = some q →
      choose_unit_price_usd card "foil" = (some q, "ok"))
    ∧ (to_float (card.prices.getD ⟨.absent, .absent⟩).usd_foil = none →
        ∀ q, to_float (card.prices.getD ⟨.absent, .absent⟩).usd = some q →
        choose_unit_price_usd card "foil" = (some q, "fallback_used:usd"))
    ∧ (to_float (card.prices.getD ⟨.absent, .absent⟩).usd_foil = none →
        to_float (card.prices.getD ⟨.absent, .absent⟩).usd = none →
        choose_unit_price_usd card "foil" = (none, "missing_price_usd"))
    ∧ (∀ q, to_float (card.prices.getD ⟨.absent, .absent⟩).usd = some q →
        choose_unit_price_usd card "nonfoil" = (some q, "ok"))
    ∧ (to_float (card.prices.getD ⟨.absent, .absent⟩).usd = none →
        ∀ q, to_float (card.prices.getD ⟨.absent, .absent⟩).usd_foil = some q →
        choose_unit_price_usd card "nonfoil" = (some q, "fallback_used:usd_foil"))
    ∧ (to_float (card.prices.getD ⟨.absent, .absent⟩).usd = none →
        to_float (card.prices.getD ⟨.absent, .absent⟩).usd_foil = none →
        choose_unit_price_usd card "nonfoil" = (none, "missing_price_usd")) := by
  refine ⟨?_, ?_, ?_, ?_, ?_, ?_⟩ <;>
    · intros
      simp only [choose_unit_price_usd, *]
      simp [*]

/-- A payload whose catalog record carries only a nonfoil price. -/
def nonfoil_only_card : Card :=
  { sample_card with prices := some ⟨PriceField.num 2, PriceField.absent⟩ }

/-- Witness for C3: a payload with only a nonfoil price, finish = foil, yields
the nonfoil price with the fallback marker. -/
theorem c3_choose_unit_price_witness :
    to_float (nonfoil_only_card.prices.getD ⟨.absent, .absent⟩).usd_foil = none ∧
    to_float (nonfoil_only_card.prices.getD ⟨.absent, .absent⟩).usd = some 2 ∧
    choose_unit_price_usd nonfoil_only_card "foil" = (some 2, "fallback_used:usd") :=
  ⟨rfl, rfl, (c3_choose_unit_price nonfoil_only_card).2.1 rfl 2 rfl⟩

/-- Helper: after an `INSERT OR REPLACE`, the inserted row is the only row
readable for its primary key, whatever the store held before. -/
theorem rows_for_key_insert (store : List SnapRow) (r : SnapRow) :
    rows_for_key (insert_or_replace store r) r.snapshot_date r.scryfall_id r.finish = [r] := by
  unfold rows_for_key insert_or_replace
  rw [List.filter_append]
  have h1 : (store.filter (fun x => decide (row_key x ≠ row_key r))).filter
      (fun x => decide (x.snapshot_date = r.snapshot_date ∧ x.scryfall_id = r.scryfall_id ∧
        x.finish = r.finish)) = [] := by
    rw [List.filter_filter]
    apply List.filter_eq_nil_iff.mpr
    intro a _
    simp only [Bool.and_eq_true, decide_eq_true_eq, not_and]
    intro hkey hne
    exact hne (by simp [row_key, hkey.1, hkey.2.1, hkey.2.2])
  rw [h1, List.nil_append]
  simp [List.filter]

/-- C2: writing a snapshot row for a `(date, item id, finish)` key and then
re-writing the same key with other field values leaves exactly one row
readable for that key, holding the second values — the upsert overwrites and
never duplicates. -/
theorem c2_upsert_idempotent (store : List SnapRow) (d : ℤ) (f : String)
    (card1 : Card) (set1 cn1 : String) (usd1 : Option ℚ)
    (card2 : Card) (set2 cn2 : String) (usd2 : Option ℚ)
    (_hid : card1.id = card2.id) :
    rows_for_key
        (upsert_snapshot (upsert_snapshot store d card1 set1 cn1 f usd1) d card2 set2 cn2 f usd2)
        d card2.id f
      = [mk_snapshot_row d card2 set2 cn2 f usd2] := by
  have h := rows_for_key_insert (upsert_snapshot store d card1 set1 cn1 f usd1)
    (mk_snapshot_row d card2 set2 cn2 f usd2)
  simpa [upsert_snapshot, mk_snapshot_row] using h

/-- A second sample payload, sharing `sample_card`'s catalog id. -/
def sample_card_v2 : Card :=
  { sample_card with name := some "Black Lotus", prices := some ⟨PriceField.num 7, PriceField.absent⟩ }

/-- Witness for C2: two concrete writes to the same `(date, id, finish)` key
leave exactly the second row. -/
theorem c2_upsert_idempotent_witness :
    sample_card.id = sample_card_v2.id ∧
    rows_for_key
        (upsert_snapshot (upsert_snapshot [] 10 sample_card "abc" "1" "foil" (some 3))
          10 sample_card_v2 "abc" "1" "foil" (some 7))
        10 sample_card_v2.id "foil"
      = [mk_snapshot_row 10 sample_card_v2 "abc" "1" "foil" (some 7)] :=
  ⟨rfl, c2_upsert_idempotent [] 10 "foil" sample_card "abc" "1" (some 3)
    sample_card_v2 "abc" "1" (some 7) rfl⟩

/-- C6 evidence: on the type line "Artifact Creature — Golem" (with a real
em-dash, as the catalog supplies), the validate_csv_to_prices.py `type_buckets`
yields exactly the claimed tokens, while the dashboard_data.py copy — whose
separator literal is the mis-encoded three-character sequence "â€”" — fails to
split and also emits the tokens "—" and "Golem"; both copies agree on the
`"Unknown"` fallback for empty or whitespace-only type text. -/
theorem c6_type_buckets_divergence :
    ValidateCsv.type_buckets "Artifact Creature — Golem" = ["Artifact", "Creature"]
    ∧ DashboardData.type_buckets "Artifact Creature — Golem" =
        ["Artifact", "Creature", "—", "Golem"]
    ∧ ValidateCsv.type_buckets "" = ["Unknown"]
    ∧ ValidateCsv.type_buckets "   " = ["Unknown"]
    ∧ DashboardData.type_buckets "" = ["Unknown"]
    ∧ DashboardData.type_buckets "   " = ["Unknown"] := by
  refine ⟨by decide, by decide, by decide, by decide, by decide, by decide⟩

/-- C5 (amended): in every joined mover row, `delta_usd` is current minus
baseline, and neither pipeline faults on a zero baseline. In dashboard_data.py
the percent is `delta / baseline × 100` for a nonzero baseline and null (NaN)
for a zero baseline; in movers.py the unguarded columnwise division makes a
zero baseline yield an IEEE infinity of the sign of the delta (NaN when the
delta is also zero) instead of null. -/
theorem c5_movers_delta_pct :
    (∀ (latest_owned : List ValuedRow) (baseline_rows : List BaselineRow),
      ∀ m ∈ dashboard_movers latest_owned baseline_rows,
        m.delta_usd = m.usd - m.usd_baseline
        ∧ (m.usd_baseline ≠ 0 → m.pct_change = some (m.delta_usd / m.usd_baseline * 100))
        ∧ (m.usd_baseline = 0 → m.pct_change = none))
    ∧ (∀ (latest_owned : List CliRow) (baseline_rows : List BaselineRow),
      ∀ m ∈ cli_movers latest_owned baseline_rows,
        m.delta_usd = m.usd - m.usd_baseline
        ∧ (m.usd_baseline ≠ 0 → m.pct_change = FloatVal.fin (m.delta_usd / m.usd_baseline * 100))
        ∧ (m.usd_baseline = 0 → 0 < m.delta_usd → m.pct_change = FloatVal.pinf)
        ∧ (m.usd_baseline = 0 → m.delta_usd < 0 → m.pct_change = FloatVal.ninf)
        ∧ (m.usd_baseline = 0 → m.delta_usd = 0 → m.pct_change = FloatVal.nan)) := by
  constructor
  · intro latest_owned baseline_rows m hm
    rw [dashboard_movers, List.mem_filterMap] at hm
    obtain ⟨lb, _, heq⟩ := hm
    rcases h1 : lb.1.usd with _ | u <;> rcases h2 : lb.2.usd_baseline with _ | ub <;>
      rw [h1, h2] at heq <;> simp only [reduceCtorEq] at heq
    cases heq
    refine ⟨rfl, ?_, ?_⟩ <;> dsimp only
    · intro hne
      simp only [pct_change_dashboard, if_pos hne]
    · intro hz
      subst hz
      simp [pct_change_dashboard]
  · intro latest_owned baseline_rows m hm
    rw [cli_movers, List.mem_filterMap] at hm
    obtain ⟨lb, _, heq⟩ := hm
    rcases h1 : lb.1.usd with _ | u <;> rcases h2 : lb.2.usd_baseline with _ | ub <;>
      rw [h1, h2] at heq <;> simp only [reduceCtorEq] at heq
    cases heq
    refine ⟨rfl, ?_, ?_, ?_, ?_⟩ <;> dsimp only
    · intro hne
      simp only [pct_change_movers, fv_div, if_neg hne, fv_mul100]
    · intro hz hpos
      subst hz
      rw [sub_zero] at hpos
      simp [pct_change_movers, fv_div, fv_mul100, hpos]
    · intro hz hneg
      subst hz
      rw [sub_zero] at hneg
      simp [pct_change_movers, fv_div, fv_mul100, hneg, not_lt.mpr hneg.le]
    · intro hz hd
      subst hz
      simp [pct_change_movers, fv_div, fv_mul100, hd]

/-- A current holding used by the mover witnesses. -/
def w_valued : ValuedRow :=
  { set_code := "abc", collector_number := "1", finish := "foil", qty := 1,
    name := some "X", scryfall_id := some "id123", rarity := "rare",
    type_line := "Artifact", usd := some 12, position_value_usd := some 12 }

/-- A baseline row with price 10 for the same (id, finish). -/
def w_base : BaselineRow := ⟨some "id123", "foil", some 10⟩

/-- The joined dashboard mover row produced from `w_valued` and `w_base`. -/
def w_dmover : DashMoverRow :=
  ⟨"foil", some "id123", 1, some "X", 12, 10, 12 - 10, pct_change_dashboard (12 - 10) 10⟩

/-- Witness for C5: a concrete joined row (baseline 10, current 12) has
delta current − baseline and the percent formula of the amended claim. -/
theorem c5_movers_delta_pct_witness :
    w_dmover ∈ dashboard_movers [w_valued] [w_base] ∧
    w_dmover.usd_baseline ≠ 0 ∧
    w_dmover.delta_usd = w_dmover.usd - w_dmover.usd_baseline ∧
    w_dmover.pct_change = some (w_dmover.delta_usd / w_dmover.usd_baseline * 100) := by
  have he : dashboard_movers [w_valued] [w_base] = [w_dmover] := rfl
  have hm : w_dmover ∈ dashboard_movers [w_valued] [w_base] := by
    rw [he]
    exact List.mem_singleton.mpr rfl
  obtain ⟨h1, h2, _⟩ := (c5_movers_delta_pct).1 [w_valued] [w_base] w_dmover hm
  exact ⟨hm, by norm_num [w_dmover], h1, h2 (by norm_num [w_dmover])⟩

/-- A current holding with price 3 for the counterexample join. -/
def cx_cli_latest : CliRow := ⟨"abc", "1", "foil", 1, some "id123", some "X", some 3⟩

/-- A baseline row with price 0 for the same (id, finish). -/
def cx_base0 : BaselineRow := ⟨some "id123", "foil", some 0⟩

/-- The joined movers.py row produced from `cx_cli_latest` and `cx_base0`. -/
def cx_cli_mover : CliMoverRow :=
  ⟨"abc", "1", "foil", 1, some "id123", some "X", 3, 0, 3 - 0, pct_change_movers (3 - 0) 0⟩

/-- C5 counterexample: in the movers.py pipeline a joined row with baseline
0.00 and current 3.00 has delta 3.00 but percent +infinity — not null (the
only null float cell is NaN) — contradicting the claim that the percent of
every joined mover row is null when the baseline is zero. -/
theorem c5_zero_baseline_counterexample :
    cli_movers [cx_cli_latest] [cx_base0] = [cx_cli_mover]
    ∧ cx_cli_mover.usd_baseline = 0
    ∧ cx_cli_mover.delta_usd = 3
    ∧ cx_cli_mover.pct_change = FloatVal.pinf
    ∧ FloatVal.pinf ≠ FloatVal.nan := by
  refine ⟨rfl, rfl, by norm_num [cx_cli_mover], ?_, by decide⟩
  show pct_change_movers (3 - 0) 0 = FloatVal.pinf
  norm_num [pct_change_movers, fv_div, fv_mul100]

/-- C7 (amended): when a latest snapshot exists but no snapshot date lies on or
before latest − days, `get_dashboard_data` succeeds with empty gainers and
losers (insufficient history is not an error there); the movers.py CLI instead
treats the absent baseline as fatal, with an error distinct from the one it
raises when the snapshot store itself is empty. -/
theorem c7_baseline_absent_behavior :
    (∀ (days : ℤ) (top_n : ℕ) (live : Bool) (owned : List OwnedRow) (store : List SnapRow)
        (cache : CacheState) (fetch : PrintingKey → Card) (now : ℚ) (l : ℤ),
      latest_snapshot_date store = some l →
      snapshot_on_or_before store (l - days) = none →
      ∃ r, get_dashboard_data days top_n live owned store cache fetch now = Except.ok r
        ∧ r.gainers = [] ∧ r.losers = [])
    ∧ (∀ (days : ℤ) (top_n : ℕ) (mode : String) (owned : List OwnedRow)
        (store : List SnapRow) (l : ℤ),
      latest_snapshot_date store = some l →
      snapshot_on_or_before store (l - days) = none →
      movers_main days top_n mode owned store = Except.error "Not enough snapshot history.")
    ∧ (∀ (days : ℤ) (top_n : ℕ) (mode : String) (owned : List OwnedRow),
      movers_main days top_n mode owned [] =
        Except.error "No snapshots found. Run scripts/snapshot_prices.py first.") := by
  refine ⟨?_, ?_, ?_⟩
  · intro days top_n live owned store cache fetch now l hl hb
    cases live <;> simp only [get_dashboard_data, hl, hb] <;>
      exact ⟨_, rfl, rfl, rfl⟩
  · intro days top_n mode owned store l hl hb
    simp only [movers_main, hl, hb]
  · intro days top_n mode owned
    rfl

/-- A one-row store whose only snapshot date is day 10. -/
def w_snaprow : SnapRow :=
  { snapshot_date := 10, scryfall_id := some "id123", set_code := "abc",
    collector_number := "1", finish := "foil", name := some "X", rarity := "rare",
    type_line := "Artifact", usd := some 5, fetched_at_epoch := some 0 }

/-- The one-row snapshot store used by the C7 witness. -/
def w_store1 : List SnapRow := [w_snaprow]

/-- Witness for C7: with the single snapshot at day 10 and a 7-day window, no
baseline exists, yet the dashboard succeeds with empty movers. -/
theorem c7_baseline_absent_behavior_witness :
    latest_snapshot_date w_store1 = some 10 ∧
    snapshot_on_or_before w_store1 (10 - 7) = none ∧
    ∃ r, get_dashboard_data 7 5 true [] w_store1 empty_cache sample_fetch 0 = Except.ok r
      ∧ r.gainers = [] ∧ r.losers = [] :=
  ⟨rfl, rfl,
    (c7_baseline_absent_behavior).1 7 5 true [] w_store1 empty_cache sample_fetch 0 10 rfl rfl⟩

/-- C7 counterexample: the mover computation of movers.py does raise when the
baseline is absent — on the concrete one-snapshot store with a 7-day lookback
it returns the "Not enough snapshot history" error rather than empty gainers
and losers. -/
theorem c7_movers_cli_raises_counterexample :
    movers_main 7 5 "abs" [] w_store1 = Except.error "Not enough snapshot history." := rfl

/-- Helper: a flat map that yields nothing for every element is empty. -/
theorem flatMap_nil_fun {α β : Type} (l : List α) :
    (l.flatMap fun _ => ([] : List β)) = [] := by
  induction l with
  | nil => rfl
  | cons a l ih => simp [ih]

/-- Helper: with an empty snapshot store the portfolio time series is empty. -/
theorem get_portfolio_timeseries_nil (owned : List OwnedRow) :
    get_portfolio_timeseries owned [] = [] := by
  simp [get_portfolio_timeseries, first_dedup, flatMap_nil_fun]

/-- C4: over an empty snapshot store, snapshot-mode valuation fails with the
NotFound-style error, while live-mode valuation over the same positions
succeeds via cache/remote resolution alone, returning the holdings, their
total and count, and empty gainers, losers and time series. -/
theorem c4_empty_snapshot_store (days : ℤ) (top_n : ℕ) (owned : List OwnedRow)
    (cache : CacheState) (fetch : PrintingKey → Card) (now : ℚ) :
    get_dashboard_data days top_n false owned [] cache fetch now =
      Except.error
        "No snapshots found for snapshot-mode. Either run snapshot_prices or set live_prices=True."
    ∧ ∃ r, get_dashboard_data days top_n true owned [] cache fetch now = Except.ok r
        ∧ r.pricing_mode = "live"
        ∧ r.latest_owned =
            (compute_live_owned fetch (normalize_owned owned) cache CACHE_TTL_HOURS now).1
        ∧ r.total_value_usd = sum_position_values r.latest_owned
        ∧ r.num_positions = r.latest_owned.length
        ∧ r.gainers = [] ∧ r.losers = [] ∧ r.portfolio_ts = [] := by
  refine ⟨rfl, ⟨_, rfl, rfl, rfl, rfl, rfl, rfl, rfl, ?_⟩⟩
  exact get_portfolio_timeseries_nil owned
